import Mathlib

/-!
Verification of the container/volume lifecycle and notification code of the
`ai-pod` repository, shallowly embedded in Lean 4.

The embedding follows `src/container.rs`, `src/server/notify.rs` and
`src/config.rs`.  External collaborators (the SHA-256 digest of the `sha2`
crate, the podman binary, the host filesystem) are modelled as explicit
parameters: probe answers and command exit statuses are `Option Bool`
(`none` = the binary could not be spawned, `some b` = it ran and reported
status `b`), host files are `Option` values, and every podman invocation that
mutates external state is recorded in a trace of `Cmd` values.
-/

set_option autoImplicit false

namespace AiPod

/-- JSON values as used by `serde_json`; objects are modelled as association
lists of key/value pairs (insertion semantics, first occurrence wins). -/
inductive Json where
  | null : Json
  | bool (b : Bool) : Json
  | num (n : Int) : Json
  | str (s : String) : Json
  | arr (xs : List Json) : Json
  | obj (kvs : List (String × Json)) : Json

/-- First-occurrence key lookup in a JSON object's entry list
(`serde_json::Map::get`). -/
def jLookup (k : String) : List (String × Json) → Option Json
  | [] => none
  | (k0, v) :: rest => if k0 = k then some v else jLookup k rest

/-- Replace the value at key `k` (first occurrence) or append the pair when
the key is absent (`serde_json::Map::insert` / `entry`). -/
def setKey : List (String × Json) → String → Json → List (String × Json)
  | [], k, v => [(k, v)]
  | (k0, v0) :: rest, k, v =>
    if k0 = k then (k0, v) :: rest else (k0, v0) :: setKey rest k v

/-- The in-container completion hook command, from
`generate_runtime_settings` in `src/container.rs`. -/
def hook_command (port : Nat) : String :=
  "curl -sf -X POST http://host.containers.internal:" ++ toString port ++
    "/notify || true"

/-- The `hooks.Stop` entry injected by `generate_runtime_settings`. -/
def stop_hook (port : Nat) : Json :=
  Json.arr [Json.obj
    [("matcher", Json.str "*"),
     ("hooks", Json.arr [Json.obj
       [("type", Json.str "command"),
        ("command", Json.str (hook_command port))]])]]

/-- `generate_runtime_settings` from `src/container.rs`, as a pure document
transformer.  The host settings file is `none` when absent, `some none` when
present but not valid JSON (`unwrap_or_else` turns that into `{}`), and
`some (some j)` when it parses to `j`.  The returned value is the document
written to `config.runtime_settings`; `Except.error` models the
`anyhow::bail`/`context` failure paths, in which nothing is written. -/
def generate_runtime_settings (host : Option (Option Json)) (port : Nat) :
    Except String Json :=
  let settings : Json :=
    match host with
    | some (some j) => j
    | some none => Json.obj []
    | none => Json.obj []
  match settings with
  | Json.obj kvs =>
    let hooks := (jLookup "hooks" kvs).getD (Json.obj [])
    match hooks with
    | Json.obj hkvs =>
      Except.ok (Json.obj
        (setKey kvs "hooks" (Json.obj (setKey hkvs "Stop" (stop_hook port)))))
    | _ => Except.error "hooks is not an object"
  | _ => Except.error "settings.json is not an object"

/-- Extract the command string of a hook entry, following the shape the
repository's own test reads back: `stop[0]["hooks"][0]["command"]`. -/
def hookEntryCommand : Json → Option String
  | Json.arr (Json.obj kvs :: _) =>
    match jLookup "hooks" kvs with
    | some (Json.arr (Json.obj kvs2 :: _)) =>
      match jLookup "command" kvs2 with
      | some (Json.str s) => some s
      | _ => none
    | _ => none
  | _ => none

/-- The existing `hooks` key (if any) is an object, so injection succeeds. -/
def hooksShapeOk (kvs : List (String × Json)) : Prop :=
  jLookup "hooks" kvs = none ∨ ∃ hk, jLookup "hooks" kvs = some (Json.obj hk)

/-- The fixed container-environment preamble `CONTAINER_CLAUDE_MD` from
`src/container.rs`. -/
def CONTAINER_CLAUDE_MD : String :=
  "# Container Environment\nYou are running inside a Podman container. To reach services on the host machine,\nuse `host.containers.internal` instead of `localhost`.\n\nFor example: `curl http://host.containers.internal:3000`\n\nWorking directory: /app\n"

/-- `generate_runtime_claude_md` from `src/container.rs`, as a pure document
builder.  The host `~/.claude/CLAUDE.md` is `none` when absent, `some none`
when present but unreadable (the fatal `context` path), and `some (some s)`
when it reads to `s`.  The returned string is the document written to
`config.runtime_claude_md`. -/
def generate_runtime_claude_md (host : Option (Option String)) : Except String String :=
  match host with
  | none => Except.ok CONTAINER_CLAUDE_MD
  | some none => Except.error "Failed to read existing CLAUDE.md"
  | some (some existing) =>
    Except.ok (CONTAINER_CLAUDE_MD ++ "\n" ++ existing)

/-- One lowercase hex digit, as produced by `hex::encode`. -/
def hexDigit (n : Nat) : Char :=
  if n < 10 then Char.ofNat (48 + n) else Char.ofNat (87 + n)

/-- The two hex digits of one byte, as produced by `hex::encode`. -/
def hexByte (b : Nat) : List Char :=
  [hexDigit (b / 16), hexDigit (b % 16)]

/-- `hex::encode` over a byte list. -/
def hexEncode : List Nat → List Char
  | [] => []
  | b :: bs => hexByte b ++ hexEncode bs

/-- `generate_container_name` from `src/container.rs`.  The parameter `h`
models the external `Sha256::digest` of the `sha2` crate: the byte list of
the digest of the workspace path string. -/
def generate_container_name (h : String → List Nat) (workspace : String) : String :=
  String.mk ("claude-".data ++ hexEncode (List.take 6 (h workspace)))

/-- `generate_volume_name` from `src/container.rs`; the same truncated digest
with the fixed `-home` suffix. -/
def generate_volume_name (h : String → List Nat) (workspace : String) : String :=
  String.mk ("claude-".data ++ hexEncode (List.take 6 (h workspace)) ++ "-home".data)

/-- A concrete stand-in digest used to exercise
`identity_derivation_correct` on explicit inputs. -/
def hashStub (s : String) : List Nat :=
  List.replicate 32 (s.length % 256)

/-- The escaping applied by `send_notification` in `src/server/notify.rs`
for the osascript backend: `.replace('"', "\\\"")`, i.e. each double quote
becomes backslash-quote; no other character is touched. -/
def escapeQuotes : List Char → List Char
  | [] => []
  | c :: rest =>
    if c = '"' then '\\' :: '"' :: escapeQuotes rest else c :: escapeQuotes rest

/-- The osascript program built by `send_notification`:
`display notification "<escaped message>" with title "<escaped title>"`. -/
def osaScript (title message : List Char) : List Char :=
  ("display notification \"").data ++
    (escapeQuotes message ++
      (("\" with title \"").data ++ (escapeQuotes title ++ ("\"").data)))

/-- AppleScript escape sequences inside a string literal. -/
def unescChar (c : Char) : Char :=
  if c = 'n' then Char.ofNat 10
  else if c = 'r' then Char.ofNat 13
  else if c = 't' then Char.ofNat 9
  else c

/-- Denotation of an AppleScript string-literal body: consumes characters up
to the first unescaped double quote (the literal's terminator), resolving
backslash escape sequences; returns the denoted string and the input
remaining after the closing quote, or `none` when the literal never
terminates. -/
def denoteBody : List Char → Option (List Char × List Char)
  | [] => none
  | c :: rest =>
    if c = '"' then some ([], rest)
    else if c = '\\' then
      match rest with
      | [] => none
      | d :: rest2 => (denoteBody rest2).map (fun p => (unescChar d :: p.1, p.2))
    else (denoteBody rest).map (fun p => (c :: p.1, p.2))

/-- Consume an expected fixed character sequence, returning the remainder. -/
def expectChars : List Char → List Char → Option (List Char)
  | [], rest => some rest
  | _ :: _, [] => none
  | p :: ps, d :: ds => if p = d then expectChars ps ds else none

/-- Parse a full `display notification "…" with title "…"` script into the
message and title its two string literals denote; `none` when the script
does not have that shape (broken quoting). -/
def osaDenote (script : List Char) : Option (List Char × List Char) :=
  (expectChars ("display notification \"").data script).bind fun r1 =>
    (denoteBody r1).bind fun p =>
      (expectChars (" with title \"").data p.2).bind fun r3 =>
        (denoteBody r3).bind fun q =>
          if q.2 = [] then some (p.1, q.1) else none

/-- One mutating podman invocation issued by the container/volume lifecycle
code.  Probe-only invocations (`ps`, `volume exists`) are not traced; their
answers live in `Env`. -/
inductive Cmd where
  | volumeCreate (v : String)
  | seedVolume (v image : String)
  | createInit (c v image : String)
  | cpClaudeJson (c : String)
  | cpClaudeDir (c : String)
  | cpRuntimeMd (c : String)
  | cpRuntimeSettings (c : String)
  | rmInit (c : String)
  | rmForce (c : String)
  | rmContainer (c : String)
  | attach (c : String)
  | runInteractive (c v w : String)
  | runOneOff (v w entry : String)
  | stopContainer (c : String)
  | volumeRm (v : String)
deriving DecidableEq

/-- The external world as observed by one CLI invocation: podman probe
answers, podman command outcomes (`none` = the binary could not be spawned,
`some b` = it ran and exited with success `b`), and host files.  Outcomes the
source discards with `let _ = ...` are carried but never read. -/
structure Env where
  containerExistsA : Option Bool
  volumeExistsProbe : Option Bool
  containerRunning : Option Bool
  containerExistsB : Option Bool
  attachStatus : Option Bool
  runStatus : Option Bool
  volCreate : Option Bool
  seedRun : Option Bool
  createInitStatus : Option Bool
  hostClaudeJsonExists : Bool
  cpJsonStatus : Option Bool
  hostClaudeDirExists : Bool
  cpDirStatus : Option Bool
  hostClaudeMd : Option (Option String)
  hostSettings : Option (Option Json)
  writeMdOk : Bool
  writeSettingsOk : Bool
  cpMdStatus : Option Bool
  cpSettingsStatus : Option Bool
  rmInitStatus : Option Bool
  oneOffStatus : Option Bool
  stopStatus : Option Bool
  rmCleanStatus : Option Bool
  volumeRmStatus : Option Bool

/-- The disposable copy-target container's name (`{container_name}-init`). -/
def init_container_name (container_name : String) : String :=
  container_name ++ "-init"

/-- The two best-effort credential copies of `init_home_volume` (steps 4-5):
attempted only when the host file exists, outcome discarded. -/
def init_copy_cmds (env : Env) (container_name : String) : List Cmd :=
  (if env.hostClaudeJsonExists then [Cmd.cpClaudeJson (init_container_name container_name)]
    else []) ++
  (if env.hostClaudeDirExists then [Cmd.cpClaudeDir (init_container_name container_name)]
    else [])

/-- `init_home_volume` from `src/container.rs`: create the volume, seed it
from the image, create the disposable init container, best-effort-copy the
operator credentials, generate and copy the runtime config, and best-effort
remove the init container.  Returns the trace of attempted podman commands
and the overall result. -/
def init_home_volume (env : Env) (volume_name container_name image : String) (port : Nat) :
    List Cmd × Except String Unit :=
  match env.volCreate with
  | none => ([Cmd.volumeCreate volume_name], Except.error "Failed to create volume")
  | some false =>
    ([Cmd.volumeCreate volume_name],
      Except.error ("Failed to create volume " ++ volume_name))
  | some true =>
    match env.seedRun with
    | none =>
      ([Cmd.volumeCreate volume_name, Cmd.seedVolume volume_name image],
        Except.error "Failed to seed home volume from image")
    | some false =>
      ([Cmd.volumeCreate volume_name, Cmd.seedVolume volume_name image],
        Except.error "Failed to seed home volume from image")
    | some true =>
      match env.createInitStatus with
      | none =>
        ([Cmd.volumeCreate volume_name, Cmd.seedVolume volume_name image,
          Cmd.createInit (init_container_name container_name) volume_name image],
          Except.error "Failed to create init container")
      | some false =>
        ([Cmd.volumeCreate volume_name, Cmd.seedVolume volume_name image,
          Cmd.createInit (init_container_name container_name) volume_name image],
          Except.error "Failed to create init container")
      | some true =>
        match generate_runtime_claude_md env.hostClaudeMd with
        | Except.error e =>
          ([Cmd.volumeCreate volume_name, Cmd.seedVolume volume_name image,
            Cmd.createInit (init_container_name container_name) volume_name image] ++
            init_copy_cmds env container_name, Except.error e)
        | Except.ok _ =>
          if env.writeMdOk then
            match generate_runtime_settings env.hostSettings port with
            | Except.error e =>
              ([Cmd.volumeCreate volume_name, Cmd.seedVolume volume_name image,
                Cmd.createInit (init_container_name container_name) volume_name image] ++
                init_copy_cmds env container_name, Except.error e)
            | Except.ok _ =>
              if env.writeSettingsOk then
                ([Cmd.volumeCreate volume_name, Cmd.seedVolume volume_name image,
                  Cmd.createInit (init_container_name container_name) volume_name image] ++
                  init_copy_cmds env container_name ++
                  [Cmd.cpRuntimeMd (init_container_name container_name),
                   Cmd.cpRuntimeSettings (init_container_name container_name),
                   Cmd.rmInit (init_container_name container_name)],
                  Except.ok ())
              else
                ([Cmd.volumeCreate volume_name, Cmd.seedVolume volume_name image,
                  Cmd.createInit (init_container_name container_name) volume_name image] ++
                  init_copy_cmds env container_name,
                  Except.error "Failed to write runtime settings")
          else
            ([Cmd.volumeCreate volume_name, Cmd.seedVolume volume_name image,
              Cmd.createInit (init_container_name container_name) volume_name image] ++
              init_copy_cmds env container_name,
              Except.error "Failed to write runtime CLAUDE.md")

/-- Attach-or-run phase of `launch_container` (lines 269-318): reconnect to a
running container, else remove the stale stopped one (best effort) and run a
fresh attached container.  Spawn failures are fatal; exit statuses of attach
and run are intentionally ignored by the source. -/
def launch_attach_or_run (env : Env) (container_name volume_name workspace : String)
    (tr : List Cmd) : List Cmd × Except String Unit :=
  match env.containerRunning with
  | none => (tr, Except.error "Failed to check if container is running")
  | some true =>
    match env.attachStatus with
    | none => (tr ++ [Cmd.attach container_name], Except.error "Failed to attach to container")
    | some _ => (tr ++ [Cmd.attach container_name], Except.ok ())
  | some false =>
    match env.containerExistsB with
    | none => (tr, Except.error "Failed to check if container exists")
    | some ex =>
      match env.runStatus with
      | none =>
        (tr ++ (if ex then [Cmd.rmContainer container_name] else []) ++
          [Cmd.runInteractive container_name volume_name workspace],
          Except.error "Failed to run container")
      | some _ =>
        (tr ++ (if ex then [Cmd.rmContainer container_name] else []) ++
          [Cmd.runInteractive container_name volume_name workspace],
          Except.ok ())

/-- Volume phase of `launch_container` (lines 264-267): probe the volume,
seed it when absent, then continue with the attach-or-run phase. -/
def launch_volume_then_run (env : Env) (container_name volume_name workspace image : String)
    (port : Nat) (tr : List Cmd) : List Cmd × Except String Unit :=
  match env.volumeExistsProbe with
  | none => (tr, Except.error "Failed to check if volume exists")
  | some true => launch_attach_or_run env container_name volume_name workspace tr
  | some false =>
    match init_home_volume env volume_name container_name image port with
    | (tri, Except.error e) => (tr ++ tri, Except.error e)
    | (tri, Except.ok _) =>
      launch_attach_or_run env container_name volume_name workspace (tr ++ tri)

/-- `launch_container` from `src/container.rs`.  With `rebuild` the existing
container is force-removed (outcome discarded); the home volume is seeded
only when the probe reports it absent; then the attach-or-run phase runs. -/
def launch_container (h : String → List Nat) (env : Env) (workspace : String)
    (port : Nat) (rebuild : Bool) (image : String) : List Cmd × Except String Unit :=
  if rebuild then
    match env.containerExistsA with
    | none => ([], Except.error "Failed to check if container exists")
    | some true =>
      launch_volume_then_run env (generate_container_name h workspace)
        (generate_volume_name h workspace) workspace image port
        [Cmd.rmForce (generate_container_name h workspace)]
    | some false =>
      launch_volume_then_run env (generate_container_name h workspace)
        (generate_volume_name h workspace) workspace image port []
  else
    launch_volume_then_run env (generate_container_name h workspace)
      (generate_volume_name h workspace) workspace image port []

/-- `run_in_container` from `src/container.rs`: ensure the volume is seeded,
then run one non-persistent container invocation and propagate its exit
status.  Image-name derivation is out of scope (spec section 1) and modelled
by the parameter `imageOf`. -/
def run_in_container (h : String → List Nat) (imageOf : String → String) (env : Env)
    (workspace : String) (port : Nat) (command : String) : List Cmd × Except String Unit :=
  match env.volumeExistsProbe with
  | none => ([], Except.error "Failed to check if volume exists")
  | some vex =>
    match (if vex then (([], Except.ok ()) : List Cmd × Except String Unit)
        else init_home_volume env (generate_volume_name h workspace)
          (generate_container_name h workspace) (imageOf workspace) port) with
    | (tr, Except.error e) => (tr, Except.error e)
    | (tr, Except.ok _) =>
      match env.oneOffStatus with
      | none =>
        (tr ++ [Cmd.runOneOff (generate_volume_name h workspace) workspace command],
          Except.error "Failed to run command in container")
      | some true =>
        (tr ++ [Cmd.runOneOff (generate_volume_name h workspace) workspace command],
          Except.ok ())
      | some false =>
        (tr ++ [Cmd.runOneOff (generate_volume_name h workspace) workspace command],
          Except.error "Command exited with non-zero status")

/-- Container-removal half of `clean_container` (stop when running, then rm;
spawn failures fatal, exit statuses ignored). -/
def clean_remove_container (env : Env) (container_name : String) :
    List Cmd × Except String Unit :=
  match env.containerRunning with
  | none => ([], Except.error "Failed to check if container is running")
  | some running =>
    match (if running then env.stopStatus else some true) with
    | none => ((if running then [Cmd.stopContainer container_name] else []),
        Except.error "Failed to stop container")
    | some _ =>
      match env.rmCleanStatus with
      | none => ((if running then [Cmd.stopContainer container_name] else []) ++
          [Cmd.rmContainer container_name], Except.error "Failed to remove container")
      | some _ => ((if running then [Cmd.stopContainer container_name] else []) ++
          [Cmd.rmContainer container_name], Except.ok ())

/-- Volume-removal half of `clean_container`: the only place in the
lifecycle that issues `podman volume rm`. -/
def clean_volume (env : Env) (volume_name : String) (tr : List Cmd) :
    List Cmd × Except String Unit :=
  match env.volumeExistsProbe with
  | none => (tr, Except.error "Failed to check if volume exists")
  | some true =>
    match env.volumeRmStatus with
    | none => (tr ++ [Cmd.volumeRm volume_name], Except.error "Failed to remove volume")
    | some _ => (tr ++ [Cmd.volumeRm volume_name], Except.ok ())
  | some false => (tr, Except.ok ())

/-- `clean_container` from `src/container.rs`: the explicit cleanup operation
that removes both the workspace's container and its home volume. -/
def clean_container (h : String → List Nat) (env : Env) (workspace : String) :
    List Cmd × Except String Unit :=
  match env.containerExistsA with
  | none => ([], Except.error "Failed to check if container exists")
  | some ex =>
    match (if ex then clean_remove_container env (generate_container_name h workspace)
        else (([], Except.ok ()) : List Cmd × Except String Unit)) with
    | (tr, Except.error e) => (tr, Except.error e)
    | (tr, Except.ok _) => clean_volume env (generate_volume_name h workspace) tr

/-- Commands that belong to the volume-seeding operation `init_home_volume`. -/
def isSeedCmd : Cmd → Bool
  | Cmd.volumeCreate _ => true
  | Cmd.seedVolume _ _ => true
  | Cmd.createInit _ _ _ => true
  | Cmd.cpClaudeJson _ => true
  | Cmd.cpClaudeDir _ => true
  | Cmd.cpRuntimeMd _ => true
  | Cmd.cpRuntimeSettings _ => true
  | Cmd.rmInit _ => true
  | _ => false

/-- `podman volume rm` invocations. -/
def isVolumeRm : Cmd → Bool
  | Cmd.volumeRm _ => true
  | _ => false

/-- A baseline world for concrete executions: every probe and command
succeeds, both host credential files exist but every best-effort copy and
cleanup spawn fails, and no host config documents are present. -/
def envBase : Env :=
  { containerExistsA := some false
    volumeExistsProbe := some true
    containerRunning := some false
    containerExistsB := some false
    attachStatus := some true
    runStatus := some true
    volCreate := some true
    seedRun := some true
    createInitStatus := some true
    hostClaudeJsonExists := true
    cpJsonStatus := none
    hostClaudeDirExists := true
    cpDirStatus := none
    hostClaudeMd := none
    hostSettings := none
    writeMdOk := true
    writeSettingsOk := true
    cpMdStatus := none
    cpSettingsStatus := none
    rmInitStatus := none
    oneOffStatus := some true
    stopStatus := some true
    rmCleanStatus := some true
    volumeRmStatus := some true }

/-- A rebuild invocation against a world where the container exists but the
home volume does not. -/
def envRebuild : Env :=
  { envBase with
      volumeExistsProbe := some false
      containerExistsA := some true }

/-- A world in which every probe succeeds, the home volume exists, no
container exists, and the `podman run` invocation spawns but exits with a
non-zero status. -/
def envRunFails : Env :=
  { envBase with runStatus := some false }

/-- A world identical to `envRunFails` except that the `podman run`
invocation cannot be spawned at all. -/
def envRunNoSpawn : Env :=
  { envBase with runStatus := none }

/-- A world where the home volume exists and the one-off invocation exits
non-zero. -/
def envOneOffFails : Env :=
  { envBase with oneOffStatus := some false }

theorem jLookup_setKey_same (l : List (String × Json)) (k : String) (v : Json) :
    jLookup k (setKey l k v) = some v := by
  induction l with
  | nil => simp [setKey, jLookup]
  | cons hd tl ih =>
    obtain ⟨k0, v0⟩ := hd
    by_cases h : k0 = k
    · simp [setKey, jLookup, h]
    · simp [setKey, jLookup, h, ih]

theorem jLookup_setKey_other (l : List (String × Json)) (k k2 : String) (v : Json)
    (hk : k2 ≠ k) : jLookup k2 (setKey l k v) = jLookup k2 l := by
  have hk2 : ¬ (k = k2) := fun h => hk h.symm
  induction l with
  | nil => simp [setKey, jLookup, hk2]
  | cons hd tl ih =>
    obtain ⟨k0, v0⟩ := hd
    by_cases h : k0 = k
    · subst h
      simp [setKey, jLookup, hk2]
    · by_cases h2 : k0 = k2 <;> simp [setKey, jLookup, h, h2, hk, ih]

theorem hook_command_infix (port : Nat) :
    (toString port).data <:+: (hook_command port).data ∧
    ("host.containers.internal").data <:+: (hook_command port).data ∧
    ("/notify").data <:+: (hook_command port).data := by
  have h1 : ("curl -sf -X POST http://host.containers.internal:" : String) =
      "curl -sf -X POST http://" ++ "host.containers.internal" ++ ":" := by decide
  have h2 : ("/notify || true" : String) = "/notify" ++ " || true" := by decide
  refine ⟨⟨"curl -sf -X POST http://host.containers.internal:".data,
      "/notify || true".data, ?_⟩, ?_, ?_⟩
  · simp [hook_command, String.data_append]
  · refine ⟨"curl -sf -X POST http://".data,
      (":" ++ toString port ++ "/notify || true").data, ?_⟩
    simp only [hook_command, h1, String.data_append]
    simp [List.append_assoc]
  · refine ⟨("curl -sf -X POST http://host.containers.internal:" ++ toString port).data,
      " || true".data, ?_⟩
    simp only [hook_command, h2, String.data_append]
    simp [List.append_assoc]

/-- C3: `generate_runtime_settings` produces the operator's settings (the
empty object when the host settings file is absent or unparseable) with one
injected completion-hook entry at key `hooks.Stop` whose command string
contains the configured notify port, the host-gateway alias
`host.containers.internal`, and the `/notify` route; every other top-level
key of an object-rooted host settings document appears unchanged in the
merged output, and with no host settings the output still contains a valid
hook entry. -/
theorem generate_runtime_settings_merges_hook (host : Option (Option Json)) (port : Nat) :
    (∀ kvs, host = some (some (Json.obj kvs)) → hooksShapeOk kvs →
      ∃ merged, generate_runtime_settings host port = Except.ok (Json.obj merged) ∧
        (∀ k, k ≠ "hooks" → jLookup k merged = jLookup k kvs) ∧
        (∃ hk, jLookup "hooks" merged = some (Json.obj hk) ∧
          jLookup "Stop" hk = some (stop_hook port) ∧
          hookEntryCommand (stop_hook port) = some (hook_command port))) ∧
    ((host = none ∨ host = some none) →
      ∃ merged, generate_runtime_settings host port = Except.ok (Json.obj merged) ∧
        ∃ hk, jLookup "hooks" merged = some (Json.obj hk) ∧
          jLookup "Stop" hk = some (stop_hook port) ∧
          hookEntryCommand (stop_hook port) = some (hook_command port)) ∧
    ((toString port).data <:+: (hook_command port).data ∧
      ("host.containers.internal").data <:+: (hook_command port).data ∧
      ("/notify").data <:+: (hook_command port).data) := by
  refine ⟨?_, ?_, hook_command_infix port⟩
  · intro kvs hhost hshape
    subst hhost
    rcases hshape with h | ⟨hk0, h⟩
    · refine ⟨setKey kvs "hooks" (Json.obj (setKey [] "Stop" (stop_hook port))),
        ?_, ?_, ?_⟩
      · simp [generate_runtime_settings, h]
      · intro k hkk
        exact jLookup_setKey_other kvs "hooks" k _ hkk
      · exact ⟨setKey [] "Stop" (stop_hook port),
          jLookup_setKey_same kvs "hooks" _,
          jLookup_setKey_same [] "Stop" _, rfl⟩
    · refine ⟨setKey kvs "hooks" (Json.obj (setKey hk0 "Stop" (stop_hook port))),
        ?_, ?_, ?_⟩
      · simp [generate_runtime_settings, h]
      · intro k hkk
        exact jLookup_setKey_other kvs "hooks" k _ hkk
      · exact ⟨setKey hk0 "Stop" (stop_hook port),
          jLookup_setKey_same kvs "hooks" _,
          jLookup_setKey_same hk0 "Stop" _, rfl⟩
  · rintro (h | h) <;> subst h <;>
      exact ⟨[("hooks", Json.obj [("Stop", stop_hook port)])], rfl,
        [("Stop", stop_hook port)], rfl, rfl, rfl⟩

theorem generate_runtime_settings_merges_hook_witness :
    ∃ merged, generate_runtime_settings
        (some (some (Json.obj [("theme", Json.str "dark")]))) 9876
        = Except.ok (Json.obj merged) ∧
      (∀ k, k ≠ "hooks" → jLookup k merged = jLookup k [("theme", Json.str "dark")]) ∧
      (∃ hk, jLookup "hooks" merged = some (Json.obj hk) ∧
        jLookup "Stop" hk = some (stop_hook 9876) ∧
        hookEntryCommand (stop_hook 9876) = some (hook_command 9876)) :=
  (generate_runtime_settings_merges_hook
      (some (some (Json.obj [("theme", Json.str "dark")]))) 9876).1
    [("theme", Json.str "dark")] rfl (Or.inl rfl)

/-- C4: for every host settings file whose contents parse as valid JSON with
a non-object root (for example an array), `generate_runtime_settings` fails
with the settings-shape error instead of producing a merged document. -/
theorem generate_runtime_settings_non_object_root_fails (j : Json) (port : Nat)
    (hj : ∀ kvs, j ≠ Json.obj kvs) :
    generate_runtime_settings (some (some j)) port =
      Except.error "settings.json is not an object" := by
  cases j with
  | obj kvs => exact absurd rfl (hj kvs)
  | null => rfl
  | bool b => rfl
  | num n => rfl
  | str s => rfl
  | arr xs => rfl

theorem generate_runtime_settings_non_object_root_fails_witness :
    generate_runtime_settings (some (some (Json.arr []))) 9876 =
      Except.error "settings.json is not an object" :=
  generate_runtime_settings_non_object_root_fails (Json.arr []) 9876
    (fun _ h => Json.noConfusion h)

/-- C10: even with an object-rooted host settings document,
`generate_runtime_settings` fails (writing no merged document) whenever the
existing top-level key "hooks" is present with a non-object value. -/
theorem generate_runtime_settings_non_object_hooks_fails
    (kvs : List (String × Json)) (port : Nat) (v : Json)
    (hv : jLookup "hooks" kvs = some v) (hnv : ∀ hk, v ≠ Json.obj hk) :
    generate_runtime_settings (some (some (Json.obj kvs))) port =
      Except.error "hooks is not an object" := by
  cases v with
  | obj hk => exact absurd rfl (hnv hk)
  | null => simp [generate_runtime_settings, hv]
  | bool b => simp [generate_runtime_settings, hv]
  | num n => simp [generate_runtime_settings, hv]
  | str s => simp [generate_runtime_settings, hv]
  | arr xs => simp [generate_runtime_settings, hv]

theorem generate_runtime_settings_non_object_hooks_fails_witness :
    generate_runtime_settings (some (some (Json.obj [("hooks", Json.str "x")]))) 9876 =
      Except.error "hooks is not an object" :=
  generate_runtime_settings_non_object_hooks_fails [("hooks", Json.str "x")] 9876
    (Json.str "x") rfl (fun _ h => Json.noConfusion h)

/-- C8: the briefing merge writes a document that begins with the fixed
container-environment preamble; when the operator's `CLAUDE.md` is present
its full contents appear verbatim after the preamble, and when it is absent
the output is the preamble alone. -/
theorem generate_runtime_claude_md_spec (host : Option (Option String)) :
    (host = none → generate_runtime_claude_md host = Except.ok CONTAINER_CLAUDE_MD) ∧
    (∀ s, host = some (some s) →
      generate_runtime_claude_md host =
        Except.ok (CONTAINER_CLAUDE_MD ++ "\n" ++ s)) ∧
    (∀ doc, generate_runtime_claude_md host = Except.ok doc →
      CONTAINER_CLAUDE_MD.data <+: doc.data) := by
  refine ⟨?_, ?_, ?_⟩
  · intro h; subst h; rfl
  · intro s h; subst h; rfl
  · intro doc hdoc
    match host, hdoc with
    | none, hdoc =>
      cases hdoc
      exact ⟨[], List.append_nil _⟩
    | some (some s), hdoc =>
      cases hdoc
      exact ⟨("\n" ++ s).data, by simp [String.data_append]⟩

theorem generate_runtime_claude_md_spec_witness :
    generate_runtime_claude_md (some (some "MY-CUSTOM-MARKER")) =
      Except.ok (CONTAINER_CLAUDE_MD ++ "\n" ++ "MY-CUSTOM-MARKER") :=
  (generate_runtime_claude_md_spec (some (some "MY-CUSTOM-MARKER"))).2.1
    "MY-CUSTOM-MARKER" rfl

theorem hexDigit_inj_fin : ∀ a b : Fin 16, hexDigit a.val = hexDigit b.val → a = b := by
  decide

theorem hexDigit_inj {a b : Nat} (ha : a < 16) (hb : b < 16)
    (h : hexDigit a = hexDigit b) : a = b :=
  congrArg Fin.val (hexDigit_inj_fin ⟨a, ha⟩ ⟨b, hb⟩ h)

theorem hexByte_inj {b1 b2 : Nat} (h1 : b1 < 256) (h2 : b2 < 256)
    (h : hexByte b1 = hexByte b2) : b1 = b2 := by
  simp only [hexByte, List.cons.injEq, and_true] at h
  have hd1 : b1 / 16 < 16 := by omega
  have hd2 : b2 / 16 < 16 := by omega
  have hm1 : b1 % 16 < 16 := by omega
  have hm2 : b2 % 16 < 16 := by omega
  have e1 := hexDigit_inj hd1 hd2 h.1
  have e2 := hexDigit_inj hm1 hm2 h.2
  omega

theorem hexEncode_inj : ∀ bs1 bs2 : List Nat, (∀ b ∈ bs1, b < 256) →
    (∀ b ∈ bs2, b < 256) → hexEncode bs1 = hexEncode bs2 → bs1 = bs2 := by
  intro bs1
  induction bs1 with
  | nil =>
    intro bs2 _ _ h
    cases bs2 with
    | nil => rfl
    | cons b bs => simp [hexEncode, hexByte] at h
  | cons b bs ih =>
    intro bs2 hb1 hb2 h
    cases bs2 with
    | nil => simp [hexEncode, hexByte] at h
    | cons c cs =>
      simp only [hexEncode, hexByte, List.cons_append, List.nil_append,
        List.cons.injEq] at h
      obtain ⟨e1, e2, e3⟩ := h
      have hblt : b < 256 := hb1 b (List.mem_cons_self b bs)
      have hclt : c < 256 := hb2 c (List.mem_cons_self c cs)
      have hbc : b = c := hexByte_inj hblt hclt (by simp [hexByte, e1, e2])
      have htl : bs = cs := ih cs (fun x hx => hb1 x (List.mem_cons_of_mem b hx))
        (fun x hx => hb2 x (List.mem_cons_of_mem c hx)) e3
      rw [hbc, htl]

/-- C1: identity derivation is a pure deterministic function of the
workspace path, and for any two paths the derived container and volume
names differ whenever the first 6 bytes of the SHA-256 digests of the two
path strings differ. -/
theorem identity_derivation_correct (h : String → List Nat)
    (hbytes : ∀ s, ∀ b ∈ h s, b < 256) (p1 p2 : String) :
    (generate_container_name h p1 = generate_container_name h p1 ∧
      generate_volume_name h p1 = generate_volume_name h p1) ∧
    (List.take 6 (h p1) ≠ List.take 6 (h p2) →
      generate_container_name h p1 ≠ generate_container_name h p2 ∧
      generate_volume_name h p1 ≠ generate_volume_name h p2) := by
  have htake : ∀ p : String, ∀ b ∈ List.take 6 (h p), b < 256 := by
    intro p b hb
    exact hbytes p b (List.mem_of_mem_take hb)
  refine ⟨⟨rfl, rfl⟩, fun hne => ⟨?_, ?_⟩⟩
  · intro heq
    apply hne
    have hd := congrArg String.data heq
    simp only [generate_container_name, String.data] at hd
    have hx := List.append_cancel_left hd
    exact hexEncode_inj _ _ (htake p1) (htake p2) hx
  · intro heq
    apply hne
    have hd := congrArg String.data heq
    simp only [generate_volume_name, String.data] at hd
    rw [List.append_assoc, List.append_assoc] at hd
    have hx := List.append_cancel_right (List.append_cancel_left hd)
    exact hexEncode_inj _ _ (htake p1) (htake p2) hx

theorem identity_derivation_correct_witness :
    generate_container_name hashStub "/a" ≠ generate_container_name hashStub "/ab" ∧
    generate_volume_name hashStub "/a" ≠ generate_volume_name hashStub "/ab" :=
  (identity_derivation_correct hashStub
    (fun s b hb => by
      rw [List.eq_of_mem_replicate hb]
      exact Nat.mod_lt _ (by norm_num)) "/a" "/ab").2 (by decide)

theorem expectChars_self (p : List Char) : ∀ rest, expectChars p (p ++ rest) = some rest := by
  induction p with
  | nil => intro rest; rfl
  | cons c cs ih => intro rest; simp [expectChars, ih]

theorem denoteBody_quote (rest : List Char) :
    denoteBody ('"' :: rest) = some ([], rest) := by
  rw [denoteBody.eq_def]
  simp

theorem denoteBody_backslash (d : Char) (rest2 : List Char) :
    denoteBody ('\\' :: d :: rest2) =
      (denoteBody rest2).map (fun p => (unescChar d :: p.1, p.2)) := by
  rw [denoteBody.eq_def]
  simp

theorem denoteBody_plain (c : Char) (rest : List Char) (h1 : c ≠ '"') (h2 : c ≠ '\\') :
    denoteBody (c :: rest) =
      (denoteBody rest).map (fun p => (c :: p.1, p.2)) := by
  rw [denoteBody.eq_def]
  simp [h1, h2]

theorem denoteBody_escapeQuotes {s : List Char} (hs : '\\' ∉ s) :
    ∀ rest, denoteBody (escapeQuotes s ++ '"' :: rest) = some (s, rest) := by
  induction s with
  | nil => intro rest; exact denoteBody_quote rest
  | cons c cs ih =>
    intro rest
    have hc : c ≠ '\\' := fun h => hs (h ▸ List.mem_cons_self c cs)
    have hcs : '\\' ∉ cs := fun h => hs (List.mem_cons_of_mem c h)
    by_cases hq : c = '"'
    · subst hq
      show denoteBody ('\\' :: '"' :: (escapeQuotes cs ++ '"' :: rest)) =
        some ('"' :: cs, rest)
      rw [denoteBody_backslash, ih hcs rest]
      rfl
    · show denoteBody ((if c = '"' then '\\' :: '"' :: escapeQuotes cs
        else c :: escapeQuotes cs) ++ '"' :: rest) = some (c :: cs, rest)
      rw [if_neg hq]
      show denoteBody (c :: (escapeQuotes cs ++ '"' :: rest)) = some (c :: cs, rest)
      rw [denoteBody_plain c _ hq hc, ih hcs rest]
      rfl

/-- The claim that osascript quoting is unbreakable for every input fails:
for the concrete title `t` and one-backslash message `\`, the generated
script's literals do not denote the given strings at all (the lone
backslash escapes the message literal's closing quote, so parsing the
script fails). -/
theorem send_notification_escaping_counterexample :
    osaDenote (osaScript ("t").data ("\\").data) ≠
      some (("\\").data, ("t").data) ∧
    osaDenote (osaScript ("t").data ("\\").data) = none := by
  constructor
  · decide
  · decide

/-- C9 (amended): `send_notification`'s osascript backend escapes double
quotes; for every title and message containing no backslash, the quoted
string literals of the generated script denote exactly the given message
and title.  (An input containing a backslash can break the quoting, as the
counterexample shows.) -/
theorem send_notification_escapes_quotes (title message : List Char)
    (hm : '\\' ∉ message) (ht : '\\' ∉ title) :
    osaDenote (osaScript title message) = some (message, title) := by
  have hmid : ("\" with title \"").data = '"' :: (" with title \"").data := rfl
  have hend : ("\"").data = '"' :: ([] : List Char) := rfl
  unfold osaScript osaDenote
  rw [hmid, hend, expectChars_self, Option.some_bind', List.cons_append,
    denoteBody_escapeQuotes hm, Option.some_bind']
  show ((expectChars (" with title \"").data
      ((" with title \"").data ++ (escapeQuotes title ++ '"' :: []))).bind _) =
    some (message, title)
  rw [expectChars_self, Option.some_bind', denoteBody_escapeQuotes ht,
    Option.some_bind']
  rfl

theorem send_notification_escapes_quotes_witness :
    osaDenote (osaScript ("Hello \"world\"").data ("Done \"ok\"").data) =
      some (("Done \"ok\"").data, ("Hello \"world\"").data) :=
  send_notification_escapes_quotes ("Hello \"world\"").data ("Done \"ok\"").data
    (by decide) (by decide)

theorem isSeedCmd_not_volumeRm {c : Cmd} (h : isSeedCmd c = true) : isVolumeRm c = false := by
  cases c <;> simp [isSeedCmd, isVolumeRm] at h ⊢

theorem init_copy_cmds_all_seed (env : Env) (cn : String) :
    (init_copy_cmds env cn).all isSeedCmd = true := by
  unfold init_copy_cmds
  repeat' split
  all_goals rfl

theorem init_home_volume_cmds_seed (env : Env) (vn cn image : String) (port : Nat) :
    ((init_home_volume env vn cn image port).1).all isSeedCmd = true := by
  unfold init_home_volume
  repeat' split
  all_goals simp [List.all_append, init_copy_cmds_all_seed, isSeedCmd]

theorem launch_attach_or_run_trace (env : Env) (cn vn ws : String) (tr : List Cmd) :
    ∃ extra, (launch_attach_or_run env cn vn ws tr).1 = tr ++ extra ∧
      extra.all (fun c => !(isVolumeRm c) && !(isSeedCmd c)) = true := by
  unfold launch_attach_or_run
  split
  · exact ⟨[], (List.append_nil tr).symm, rfl⟩
  · split
    · exact ⟨[Cmd.attach cn], rfl, rfl⟩
    · exact ⟨[Cmd.attach cn], rfl, rfl⟩
  · split
    · exact ⟨[], (List.append_nil tr).symm, rfl⟩
    · split
      · split
        · exact ⟨[Cmd.rmContainer cn, Cmd.runInteractive cn vn ws],
            by rw [List.append_assoc]; rfl, rfl⟩
        · exact ⟨[Cmd.runInteractive cn vn ws], by simp, rfl⟩
      · split
        · exact ⟨[Cmd.rmContainer cn, Cmd.runInteractive cn vn ws],
            by rw [List.append_assoc]; rfl, rfl⟩
        · exact ⟨[Cmd.runInteractive cn vn ws], by simp, rfl⟩

theorem mem_launch_attach_or_run {env : Env} {cn vn ws : String} {tr : List Cmd} {c : Cmd}
    (hc : c ∈ (launch_attach_or_run env cn vn ws tr).1) :
    c ∈ tr ∨ (isVolumeRm c = false ∧ isSeedCmd c = false) := by
  obtain ⟨extra, heq, hall⟩ := launch_attach_or_run_trace env cn vn ws tr
  rw [heq, List.mem_append] at hc
  rcases hc with hc | hc
  · exact Or.inl hc
  · have hp := List.all_eq_true.mp hall c hc
    simp only [Bool.and_eq_true, Bool.not_eq_true'] at hp
    exact Or.inr hp

theorem mem_launch_volume_then_run {env : Env} {cn vn ws image : String} {port : Nat}
    {tr : List Cmd} {c : Cmd}
    (hc : c ∈ (launch_volume_then_run env cn vn ws image port tr).1) :
    c ∈ tr ∨ (isVolumeRm c = false ∧
      (isSeedCmd c = true → env.volumeExistsProbe = some false)) := by
  unfold launch_volume_then_run at hc
  split at hc
  · exact Or.inl hc
  case h_2 hprobe =>
    rcases mem_launch_attach_or_run hc with hm | ⟨h1, h2⟩
    · exact Or.inl hm
    · exact Or.inr ⟨h1, fun hs => absurd hs (by simp [h2])⟩
  case h_3 hprobe =>
    have seedmem : ∀ tri : List Cmd, tri.all isSeedCmd = true → c ∈ tr ++ tri →
        c ∈ tr ∨ (isVolumeRm c = false ∧
          (isSeedCmd c = true → env.volumeExistsProbe = some false)) := by
      intro tri hall hmem
      rw [List.mem_append] at hmem
      rcases hmem with hmem | hmem
      · exact Or.inl hmem
      · have hseed := List.all_eq_true.mp hall c hmem
        exact Or.inr ⟨isSeedCmd_not_volumeRm hseed, fun _ => hprobe⟩
    split at hc
    case h_1 tri e hpair =>
      refine seedmem tri ?_ hc
      have := init_home_volume_cmds_seed env vn cn image port
      rw [hpair] at this
      exact this
    case h_2 tri u hpair =>
      rcases mem_launch_attach_or_run hc with hm | ⟨h1, h2⟩
      · refine seedmem tri ?_ hm
        have := init_home_volume_cmds_seed env vn cn image port
        rw [hpair] at this
        exact this
      · exact Or.inr ⟨h1, fun hs => absurd hs (by simp [h2])⟩

/-- C2: `launch_container` never issues `podman volume rm`, and issues
seeding commands only when the volume probe reported the home volume
absent; in particular a rebuild with an existing home volume force-removes
only the container and neither removes nor re-seeds the volume. -/
theorem launch_container_preserves_home_volume (h : String → List Nat) (env : Env)
    (workspace : String) (port : Nat) (rebuild : Bool) (image : String) :
    ∀ c ∈ (launch_container h env workspace port rebuild image).1,
      isVolumeRm c = false ∧
        (isSeedCmd c = true → env.volumeExistsProbe = some false) := by
  intro c hc
  unfold launch_container at hc
  split at hc
  · split at hc
    · simp at hc
    · rcases mem_launch_volume_then_run hc with hm | hP
      · simp only [List.mem_singleton] at hm
        subst hm
        exact ⟨rfl, fun hs => by simp [isSeedCmd] at hs⟩
      · exact hP
    · rcases mem_launch_volume_then_run hc with hm | hP
      · simp at hm
      · exact hP
  · rcases mem_launch_volume_then_run hc with hm | hP
    · simp at hm
    · exact hP

theorem launch_container_preserves_home_volume_witness :
    isVolumeRm (Cmd.volumeCreate (generate_volume_name hashStub "/w")) = false ∧
    envRebuild.volumeExistsProbe = some false := by
  have hmem : Cmd.volumeCreate (generate_volume_name hashStub "/w") ∈
      (launch_container hashStub envRebuild "/w" 4242 true "img").1 := by decide
  have happ := launch_container_preserves_home_volume hashStub envRebuild
    "/w" 4242 true "img" _ hmem
  exact ⟨happ.1, happ.2 rfl⟩

/-- C5 (amended): in the fresh-start path of `launch_container`, failure to
spawn the create-and-start invocation (`podman run`) is fatal and aborts the
launch; but when the invocation spawns, `launch_container` returns success
regardless of its exit status — a non-zero exit (which conflates create/start
failure with normal interactive-session termination) is intentionally
ignored by the source. -/
theorem launch_container_run_spawn_fatal (h : String → List Nat) (env : Env)
    (ws : String) (port : Nat) (image : String)
    (hvol : env.volumeExistsProbe = some true)
    (hrun : env.containerRunning = some false)
    (hex : env.containerExistsB = some false) :
    (env.runStatus = none →
      (launch_container h env ws port false image).2 =
        Except.error "Failed to run container") ∧
    (∀ b, env.runStatus = some b →
      (launch_container h env ws port false image).2 = Except.ok ()) := by
  constructor
  · intro hs
    simp [launch_container, launch_volume_then_run, launch_attach_or_run,
      hvol, hrun, hex, hs]
  · intro b hs
    simp [launch_container, launch_volume_then_run, launch_attach_or_run,
      hvol, hrun, hex, hs]

theorem launch_container_run_spawn_fatal_witness :
    (launch_container hashStub envRunNoSpawn "/w" 7777 false "img").2 =
      Except.error "Failed to run container" :=
  (launch_container_run_spawn_fatal hashStub envRunNoSpawn "/w" 7777 "img"
    rfl rfl rfl).1 rfl

/-- Refutation of C5 as stated: in a world where the create-and-start
command (`podman run`) is reached and exits with a failure status,
`launch_container` still returns success (the non-zero exit is ignored). -/
theorem launch_container_run_exit_ignored_counterexample :
    envRunFails.runStatus = some false ∧
    Cmd.runInteractive (generate_container_name hashStub "/w")
      (generate_volume_name hashStub "/w") "/w" ∈
      (launch_container hashStub envRunFails "/w" 7777 false "img").1 ∧
    (launch_container hashStub envRunFails "/w" 7777 false "img").2 =
      Except.ok () := by
  refine ⟨rfl, by decide, rfl⟩

/-- C6: `run_in_container` propagates the one-off container invocation's
exit status: given the home volume exists (or is seeded successfully) and
the invocation spawns with exit-success `b`, the call succeeds iff `b`. -/
theorem run_in_container_propagates_exit (h : String → List Nat)
    (imageOf : String → String) (env : Env) (ws : String) (port : Nat)
    (command : String)
    (hvol : env.volumeExistsProbe = some true ∨
      (env.volumeExistsProbe = some false ∧
        (init_home_volume env (generate_volume_name h ws)
          (generate_container_name h ws) (imageOf ws) port).2 = Except.ok ()))
    (b : Bool) (hb : env.oneOffStatus = some b) :
    ((run_in_container h imageOf env ws port command).2 = Except.ok () ↔ b = true) := by
  rcases hvol with hvol | ⟨hvol, hinit⟩
  · cases b <;> simp [run_in_container, hvol, hb]
  · rcases hpair : init_home_volume env (generate_volume_name h ws)
        (generate_container_name h ws) (imageOf ws) port with ⟨tri, ri⟩
    have hri : ri = Except.ok () := by
      rw [hpair] at hinit
      exact hinit
    subst hri
    cases b <;> simp [run_in_container, hvol, hb, hpair]

theorem run_in_container_propagates_exit_witness :
    ((run_in_container hashStub (fun _ => "img") envOneOffFails "/w" 7777
        "claude").2 = Except.ok () ↔ false = true) :=
  run_in_container_propagates_exit hashStub (fun _ => "img") envOneOffFails
    "/w" 7777 "claude" (Or.inl rfl) false rfl

/-- C7: `init_home_volume` succeeds whenever its primary steps succeed
(volume creation, image seeding, init-container creation, runtime-config
generation and writing), regardless of whether the host `~/.claude.json`
file or `~/.claude` directory exists and regardless of the outcomes of the
best-effort copy commands and the final init-container removal, which the
source discards; a missing host file never aborts seeding. -/
theorem init_home_volume_soft_failures (env : Env) (vn cn image : String) (port : Nat)
    (h1 : env.volCreate = some true) (h2 : env.seedRun = some true)
    (h3 : env.createInitStatus = some true)
    (h4 : ∃ doc, generate_runtime_claude_md env.hostClaudeMd = Except.ok doc)
    (h5 : env.writeMdOk = true)
    (h6 : ∃ j, generate_runtime_settings env.hostSettings port = Except.ok j)
    (h7 : env.writeSettingsOk = true) :
    (init_home_volume env vn cn image port).2 = Except.ok () := by
  obtain ⟨doc, h4⟩ := h4
  obtain ⟨j, h6⟩ := h6
  simp [init_home_volume, h1, h2, h3, h4, h5, h6, h7]

theorem init_home_volume_soft_failures_witness :
    (init_home_volume envBase "claude-aaaaaaaaaaaa-home" "claude-aaaaaaaaaaaa"
        "img" 7777).2 = Except.ok () :=
  init_home_volume_soft_failures envBase "claude-aaaaaaaaaaaa-home"
    "claude-aaaaaaaaaaaa" "img" 7777 rfl rfl rfl ⟨CONTAINER_CLAUDE_MD, rfl⟩ rfl
    ⟨Json.obj [("hooks", Json.obj [("Stop", stop_hook 7777)])], rfl⟩ rfl

end AiPod
